import Mathlib

/-!
Verification of the submillisecond request-dispatch core.

Shallow embedding of the repository's three source files:
- `src/lib.rs` — the per-connection worker pipeline (`Application::serve`),
  capture-store merging (`Application::merge_extensions`) and
  `RouteError::into_response`;
- `src/extract/path.rs` — the `Path` extractor, its `ErrorKind` taxonomy,
  rendering (`Display`) and HTTP classification (`IntoResponse`);
- `src/extract/vec.rs` — the infallible `Vec<u8>` body extractor.

Rust `String`s are Lean `String`s; raw byte buffers (HTTP bodies, raw capture
values before percent-decoding) are `List Nat` with each element a byte value.
Panics are modelled as `Option.none`; `Result` is `Except`.
-/

namespace Submillisecond

/-- Model of `http::Version` (HTTP protocol versions). -/
inductive Version where
  | http09
  | http10
  | http11
  | http2
  | http3
deriving DecidableEq

/-- Modelled from the spec: `Params` (crate module `params`, not present under
`src/`) is the per-request CaptureStore — an ordered mapping of capture name to
raw value, in insertion order. Raw values are byte lists (possibly
percent-encoded). -/
structure Params where
  entries : List (String × List Nat)
deriving DecidableEq

/-- Model of `Params::new()` — the fresh, empty capture store. -/
def Params.new : Params := ⟨[]⟩

/-- The key set of a capture store, in insertion order. -/
def Params.keys (p : Params) : List String := p.entries.map Prod.fst

/-- Modelled from the spec: lookup in the capture store. The spec fixes the
merge policy as "the incoming set's entries take precedence on key collision"
and "later merge wins"; with `merge` appending the incoming entries, the last
matching entry is the authoritative one, so lookup scans from the back. -/
def Params.get (p : Params) (k : String) : Option (List Nat) :=
  (p.entries.reverse.find? (fun e => e.fst == k)).map Prod.snd

/-- Modelled from the spec: `Params::merge` (crate module `params`, not present
under `src/`) — merging appends the incoming store's entries, so the incoming
set's entries take precedence on key collision ("later merge wins"). -/
def Params.merge (p incoming : Params) : Params :=
  ⟨p.entries ++ incoming.entries⟩

/-- Model of `http::Response<Vec<u8>>` as used by the core: status, protocol
version, header list (name, value), byte body. -/
structure Response where
  status : Nat
  version : Version
  headers : List (String × String)
  body : List Nat
deriving DecidableEq

/-- Model of `http::Request<Vec<u8>>` as used by the core: URI path, protocol
version, byte body, and the extension map's `Params` slot. The heterogeneous
extension map (`http::Extensions`) is modelled by the one slot this core reads:
`extensions.get::<Params>()` is `Option Params`. -/
structure Request where
  path : String
  version : Version
  body : List Nat
  extensions : Option Params
deriving DecidableEq

/-! ## ErrorKind and its rendering (`src/extract/path.rs`) -/

/-- Model of `ErrorKind` (`src/extract/path.rs`, lines 248-312): the closed
taxonomy of path-extraction failures. `&'static str` type names are `String`. -/
inductive ErrorKind where
  | WrongNumberOfParameters (got : Nat) (expected : Nat)
  | ParseErrorAtKey (key : String) (value : String) (expected_type : String)
  | ParseErrorAtIndex (index : Nat) (value : String) (expected_type : String)
  | ParseError (value : String) (expected_type : String)
  | InvalidUtf8InPathParam (key : String)
  | UnsupportedType (name : String)
  | Message (msg : String)
deriving DecidableEq

/-- Minimal lowercase hexadecimal rendering of a `Nat` (Rust
`escape_unicode` digit output). -/
def hexStr (n : Nat) : String := ⟨Nat.toDigits 16 n⟩

/-- Model of Rust's `char` escaping inside `str`'s `Debug` output
(`char::escape_debug` with double quotes escaped and single quotes kept).
NUL, tab, carriage return, newline, backslash and double quote map to the
two-character escapes `\0`, `\t`, `\r`, `\n`, `\\`, `\"`; printable ASCII
(0x20-0x7E) is kept verbatim; every other character is escaped as
`\u{...}` (minimal lowercase hex). This is exact on ASCII: the remaining C0
controls and DEL are non-printable in Rust and escaped exactly so. Beyond
ASCII, Rust consults Unicode printability and grapheme-extension tables:
non-printable (e.g. U+0085, U+00AD) and grapheme-extending (e.g. U+0301)
characters are escaped as here, while printable non-grapheme-extending
characters are kept verbatim by Rust but escaped by this model; every
exact-text theorem below is therefore stated on ASCII values, where the
model coincides with Rust. -/
def escapeDebugChar (c : Char) : String :=
  if c = '\x00' then "\\0"
  else if c = '\t' then "\\t"
  else if c = '\r' then "\\r"
  else if c = '\n' then "\\n"
  else if c = '\\' then "\\\\"
  else if c = '\"' then "\\\""
  else if 32 ≤ c.toNat ∧ c.toNat ≤ 126 then String.singleton c
  else "\\u\x7b" ++ hexStr c.toNat ++ "\x7d"

/-- Model of Rust's `Debug` formatting (`{:?}`) of a string: the escaped
characters wrapped in double quotes (exact on ASCII strings, see
`escapeDebugChar`). -/
def debugFmt (s : String) : String :=
  "\"" ++ String.join (s.data.map escapeDebugChar) ++ "\""

/-- Follows the amended C2 claim's words: Rust `Debug` escaping of one
character of an ASCII string — NUL, tab, CR, LF, backslash and double
quote become `\0`, `\t`, `\r`, `\n`, `\\`, `\"`; the remaining ASCII
control characters (below 0x20, and DEL) are escaped as `\u{...}`; other
characters stand verbatim. Only meaningful on ASCII input. -/
def rustStrDebugAsciiChar (c : Char) : String :=
  if c = '\x00' then "\\0"
  else if c = '\t' then "\\t"
  else if c = '\r' then "\\r"
  else if c = '\n' then "\\n"
  else if c = '\\' then "\\\\"
  else if c = '\"' then "\\\""
  else if c.toNat < 32 ∨ c.toNat = 127 then "\\u\x7b" ++ hexStr c.toNat ++ "\x7d"
  else String.singleton c

/-- Follows the amended C2 claim's words: Rust's `Debug` rendering of an
ASCII string — the escaped characters wrapped in double quotes. -/
def rustStrDebugAscii (s : String) : String :=
  "\"" ++ String.join (s.data.map rustStrDebugAsciiChar) ++ "\""

/-- The guidance suffix appended to the `WrongNumberOfParameters` message when
exactly one parameter was expected (`src/extract/path.rs`, lines 326-331). -/
def tupleGuidanceSuffix : String :=
  ". Note that multiple parameters must be extracted with a tuple `Path<(_, _)>` or a struct `Path<YourParams>`"

/-- Model of `impl fmt::Display for ErrorKind` (`src/extract/path.rs`,
lines 314-360). Note the source renders `value` with `{:?}` (Rust `Debug`
formatting), and every other field with `{}` (verbatim / decimal). -/
def ErrorKind.fmt : ErrorKind → String
  | .Message error => error
  | .InvalidUtf8InPathParam key => "Invalid UTF-8 in `" ++ key ++ "`"
  | .WrongNumberOfParameters got expected =>
      "Wrong number of path arguments for `Path`. Expected " ++ toString expected
        ++ " but got " ++ toString got
        ++ (if expected = 1 then tupleGuidanceSuffix else "")
  | .UnsupportedType name => "Unsupported type `" ++ name ++ "`"
  | .ParseErrorAtKey key value expected_type =>
      "Cannot parse `" ++ key ++ "` with value `" ++ debugFmt value
        ++ "` to a `" ++ expected_type ++ "`"
  | .ParseError value expected_type =>
      "Cannot parse `" ++ debugFmt value ++ "` to a `" ++ expected_type ++ "`"
  | .ParseErrorAtIndex index value expected_type =>
      "Cannot parse value at index " ++ toString index ++ " with value `"
        ++ debugFmt value ++ "` to a `" ++ expected_type ++ "`"

/-- Model of `PathDeserializationError` (`src/extract/path.rs`, lines
184-186): a newtype over `ErrorKind`. -/
structure PathDeserializationError where
  kind : ErrorKind
deriving DecidableEq

/-- Model of `FailedToDeserializePathParams` (`src/extract/path.rs`, line
365): a newtype over `PathDeserializationError`. -/
structure FailedToDeserializePathParams where
  err : PathDeserializationError
deriving DecidableEq

/-- Model of `FailedToDeserializePathParams::into_kind`. -/
def FailedToDeserializePathParams.into_kind (f : FailedToDeserializePathParams) : ErrorKind :=
  f.err.kind

/-- Model of `impl IntoResponse for FailedToDeserializePathParams`
(`src/extract/path.rs`, lines 374-391), up to the final
`(status, body).into_response()` call: the HTTP status code and the body
string chosen from the error kind. -/
def FailedToDeserializePathParams.into_response
    (f : FailedToDeserializePathParams) : Nat × String :=
  match f.err.kind with
  | .Message _ | .InvalidUtf8InPathParam _ | .ParseError _ _
  | .ParseErrorAtIndex _ _ _ | .ParseErrorAtKey _ _ _ =>
      (400, "Invalid URL: " ++ f.err.kind.fmt)
  | .WrongNumberOfParameters _ _ | .UnsupportedType _ =>
      (500, f.err.kind.fmt)

/-! ## Path extraction (`src/extract/path.rs`, `Path::from_request`) -/

/-- Model of `PathRejection` — the rejection type of the `Path` extractor. -/
inductive PathRejection where
  | FailedToDeserializePathParams (e : FailedToDeserializePathParams)
deriving DecidableEq

/-- Hexadecimal value of an ASCII byte, when it is a hex digit. -/
def hexVal (b : Nat) : Option Nat :=
  if 48 ≤ b ∧ b ≤ 57 then some (b - 48)
  else if 65 ≤ b ∧ b ≤ 70 then some (b - 55)
  else if 97 ≤ b ∧ b ≤ 102 then some (b - 87)
  else none

/-- Modelled from the spec: percent-decoding of a raw capture value (part of
`PercentDecodedStr` in the `de` module of `path.rs`, not present under
`src/`). A `%` followed by two hex digits decodes to that byte; any other
byte passes through verbatim. -/
def percentDecode : List Nat → List Nat
  | [] => []
  | 37 :: h :: l :: rest =>
    match hexVal h, hexVal l with
    | some hv, some lv => (16 * hv + lv) :: percentDecode rest
    | _, _ => 37 :: percentDecode (h :: l :: rest)
  | b :: rest => b :: percentDecode rest

/-- Whether a byte is a UTF-8 continuation byte (`10xxxxxx`). -/
def isUtf8Cont (b : Nat) : Bool := 128 ≤ b && b ≤ 191

/-- Strict UTF-8 validity of a byte list (RFC 3629 well-formed ranges,
rejecting overlong encodings and surrogates). -/
def isValidUtf8 : List Nat → Bool
  | [] => true
  | b :: rest =>
    if b ≤ 127 then isValidUtf8 rest
    else if 194 ≤ b && b ≤ 223 then
      match rest with
      | c1 :: rest2 => isUtf8Cont c1 && isValidUtf8 rest2
      | [] => false
    else if b = 224 then
      match rest with
      | c1 :: c2 :: rest2 =>
          (160 ≤ c1 && c1 ≤ 191) && isUtf8Cont c2 && isValidUtf8 rest2
      | _ => false
    else if (225 ≤ b && b ≤ 236) || (238 ≤ b && b ≤ 239) then
      match rest with
      | c1 :: c2 :: rest2 => isUtf8Cont c1 && isUtf8Cont c2 && isValidUtf8 rest2
      | _ => false
    else if b = 237 then
      match rest with
      | c1 :: c2 :: rest2 =>
          (128 ≤ c1 && c1 ≤ 159) && isUtf8Cont c2 && isValidUtf8 rest2
      | _ => false
    else if b = 240 then
      match rest with
      | c1 :: c2 :: c3 :: rest2 =>
          (144 ≤ c1 && c1 ≤ 191) && isUtf8Cont c2 && isUtf8Cont c3 && isValidUtf8 rest2
      | _ => false
    else if 241 ≤ b && b ≤ 243 then
      match rest with
      | c1 :: c2 :: c3 :: rest2 =>
          isUtf8Cont c1 && isUtf8Cont c2 && isUtf8Cont c3 && isValidUtf8 rest2
      | _ => false
    else if b = 244 then
      match rest with
      | c1 :: c2 :: c3 :: rest2 =>
          (128 ≤ c1 && c1 ≤ 143) && isUtf8Cont c2 && isUtf8Cont c3 && isValidUtf8 rest2
      | _ => false
    else false

/-- Modelled from the spec: `PercentDecodedStr::new` (the `de` module of
`path.rs`, not present under `src/`) — percent-decode the raw value and
require the result be valid UTF-8, returning `none` otherwise. -/
def PercentDecodedStr.new (v : List Nat) : Option (List Nat) :=
  let d := percentDecode v
  if isValidUtf8 d then some d else none

/-- Model of the `iter().map(...).collect::<Result<Vec<_>, _>>()` stage of
`Path::from_request` (`src/extract/path.rs`, lines 157-169): percent-decode
each entry's raw value in order; the first entry whose decoded bytes are not
valid UTF-8 short-circuits with `InvalidUtf8InPathParam` carrying its key. -/
def decodeParams : List (String × List Nat) →
    Except PathRejection (List (String × List Nat))
  | [] => .ok []
  | (k, v) :: rest =>
    match PercentDecodedStr.new v with
    | some decoded => (decodeParams rest).map (fun ds => (k, decoded) :: ds)
    | none =>
        .error (.FailedToDeserializePathParams ⟨⟨.InvalidUtf8InPathParam k⟩⟩)

/-- Model of the `Path` extractor newtype (`src/extract/path.rs`, line 128). -/
structure Path (T : Type) where
  val : T
deriving DecidableEq

/-- Model of `Path::<T>::from_request` (`src/extract/path.rs`, lines 152-176).
The serde deserialization `T::deserialize(PathDeserializer::new(..))` is the
`deserialize` parameter (the `de` module is generic over `T` and external to
the claims). The `.unwrap()` on the extension lookup panics when the `Params`
entry is absent; the panic is modelled as `none`. -/
def Path.from_request {T : Type}
    (deserialize : List (String × List Nat) → Except PathDeserializationError T)
    (extensionsParams : Option Params) :
    Option (Except PathRejection (Path T)) :=
  match extensionsParams with
  | none => none
  | some params =>
    some (match decodeParams params.entries with
      | .error e => .error e
      | .ok decoded =>
        match deserialize decoded with
        | .error err => .error (.FailedToDeserializePathParams ⟨err⟩)
        | .ok t => .ok ⟨t⟩)

/-- The key of the first entry whose raw value fails percent-decoding to
valid UTF-8, if any. -/
def firstInvalidKey : List (String × List Nat) → Option String
  | [] => none
  | (k, v) :: rest =>
    match PercentDecodedStr.new v with
    | none => some k
    | some _ => firstInvalidKey rest

/-! ## Worker pipeline (`src/lib.rs`) -/

/-- UTF-8 bytes of a string, as a byte list. -/
def strToBytes (s : String) : List Nat := s.toUTF8.toList.map (fun b => b.toNat)

/-- Model of `core::UriReader` as consumed here: `UriReader::new(path)`
(the `core` module is external to the claims; only the constructor call in
`Application::serve` appears in `src/`). -/
structure UriReader where
  path : String
deriving DecidableEq

/-- Model of `UriReader::new`. -/
def UriReader.new (path : String) : UriReader := ⟨path⟩

/-- Modelled from the spec: `defaults::err_404` (crate module `defaults`,
not present under `src/`) — the fixed "not found" default response with
status 404, independent of the request. -/
def err_404 : Response :=
  { status := 404, version := .http11, headers := [], body := strToBytes "Not Found" }

/-- Model of `RouteError` (`src/lib.rs`, lines 113-116): the typed dispatch
failure. -/
inductive RouteError where
  | ExtractorError (resp : Response)
  | RouteNotMatch (req : Request)

/-- Model of `impl IntoResponse for RouteError` (`src/lib.rs`, lines
118-125): an extractor failure yields the wrapped response unchanged; an
unmatched route yields the fixed 404 default, discarding the request. -/
def RouteError.into_response : RouteError → Response
  | .ExtractorError resp => resp
  | .RouteNotMatch _ => err_404

/-- Model of the `Router` function type (`src/lib.rs`, line 33). -/
def Router : Type := Request → Params → UriReader → Except RouteError Response

/-- Modelled from the spec: the error of `core::parse_request` (crate module
`core`, not present under `src/`) — the parse failure carried to the error
response. -/
structure ParseRequestError where
  message : String
deriving DecidableEq

/-- Modelled from the spec: the error response synthesized from a parse
failure (`err.into_response()` in `src/lib.rs`, line 75; the `IntoResponse`
impl lives in the missing `core`/`response` modules). The spec says only
that a best-effort error response is synthesized from the parse failure;
the §4.6 finalization (Content-Length, version) is a separate step of the
pipeline, applied after dispatch, so the synthesized response carries no
Content-Length header. -/
def ParseRequestError.into_response (e : ParseRequestError) : Response :=
  { status := 400, version := .http11, headers := [], body := strToBytes e.message }

/-- Model of the dispatch stage of the worker
(`src/lib.rs`, lines 85-88): call the router with a fresh `Params` and a
`UriReader` over the request's path, and on failure convert the
`RouteError` to a response. -/
def dispatchResponse (handler : Router) (request : Request) : Response :=
  match handler request Params.new (UriReader.new request.path) with
  | .ok response => response
  | .error err => err.into_response

/-- Model of the response finalization in `Application::serve`
(`src/lib.rs`, lines 90-94): set the response's protocol version to the
inbound request's, and append (never replace) a Content-Length header whose
value is the byte length of the response body. -/
def finalizeResponse (httpVersion : Version) (response : Response) : Response :=
  { response with
      version := httpVersion,
      headers := response.headers
        ++ [("content-length", toString response.body.length)] }

/-- Model of the per-connection worker body
(`src/lib.rs`, lines 72-98), from the parse result to the response written
to the connection. The returned `Bool` records whether the dispatch entry
point (`handler`) was invoked. On parse failure the synthesized error
response is written as-is and the worker returns without invoking dispatch;
on success the dispatch response is finalized with the inbound request's
version and Content-Length, then written. -/
def handleConnection (parseResult : Except ParseRequestError Request)
    (handler : Router) : Response × Bool :=
  match parseResult with
  | .error err => (err.into_response, false)
  | .ok request =>
      (finalizeResponse request.version (dispatchResponse handler request), true)

/-- A concrete router returning a fixed empty 200 response. -/
def fixedOkRouter : Router :=
  fun _ _ _ => Except.ok { status := 200, version := .http11, headers := [], body := [] }

/-! ## Body extraction (`src/extract/vec.rs`) -/

/-- Model of `std::convert::Infallible` — the uninhabited error type. -/
def Infallible : Type := Empty

/-- Model of `impl FromRequest for Vec<u8>` (`src/extract/vec.rs`, lines
7-14): `mem::take(req.body_mut())` moves the body out, leaving it empty,
and the extraction always succeeds. The pair is (result, request after the
call). -/
def VecU8.from_request (req : Request) : Except Infallible (List Nat) × Request :=
  (Except.ok req.body, { req with body := [] })

end Submillisecond

namespace Submillisecond

/-- C1: for every extraction failure the status/body classification is decided
solely by the `ErrorKind`: `Message`, `InvalidUtf8InPathParam`, `ParseError`,
`ParseErrorAtIndex` and `ParseErrorAtKey` map to status 400 with body
"Invalid URL: " concatenated with the rendered error text, while
`WrongNumberOfParameters` and `UnsupportedType` map to status 500 with the
rendered error text unprefixed. -/
theorem into_response_classification :
    (∀ s, FailedToDeserializePathParams.into_response ⟨⟨.Message s⟩⟩
      = (400, "Invalid URL: " ++ ErrorKind.fmt (.Message s))) ∧
    (∀ k, FailedToDeserializePathParams.into_response ⟨⟨.InvalidUtf8InPathParam k⟩⟩
      = (400, "Invalid URL: " ++ ErrorKind.fmt (.InvalidUtf8InPathParam k))) ∧
    (∀ v t, FailedToDeserializePathParams.into_response ⟨⟨.ParseError v t⟩⟩
      = (400, "Invalid URL: " ++ ErrorKind.fmt (.ParseError v t))) ∧
    (∀ i v t, FailedToDeserializePathParams.into_response ⟨⟨.ParseErrorAtIndex i v t⟩⟩
      = (400, "Invalid URL: " ++ ErrorKind.fmt (.ParseErrorAtIndex i v t))) ∧
    (∀ k v t, FailedToDeserializePathParams.into_response ⟨⟨.ParseErrorAtKey k v t⟩⟩
      = (400, "Invalid URL: " ++ ErrorKind.fmt (.ParseErrorAtKey k v t))) ∧
    (∀ g e, FailedToDeserializePathParams.into_response ⟨⟨.WrongNumberOfParameters g e⟩⟩
      = (500, ErrorKind.fmt (.WrongNumberOfParameters g e))) ∧
    (∀ n, FailedToDeserializePathParams.into_response ⟨⟨.UnsupportedType n⟩⟩
      = (500, ErrorKind.fmt (.UnsupportedType n))) := by
  refine ⟨?_, ?_, ?_, ?_, ?_, ?_, ?_⟩ <;> intros <;> rfl

/-- C2 counterexample: the claim says the capture's string is inserted
verbatim, but the source renders it with `{:?}` (Rust `Debug` formatting),
which wraps it in double quotes: at value `"x"` and expected type `"u32"`,
the rendered text is not the claimed verbatim template. -/
theorem parse_error_value_not_verbatim :
    ErrorKind.fmt (.ParseError "x" "u32") ≠ "Cannot parse `x` to a `u32`" ∧
    ErrorKind.fmt (.ParseError "x" "u32") = "Cannot parse `\"x\"` to a `u32`" := by
  constructor
  · decide
  · decide

/-- On ASCII characters the embedding's `Debug` escaping coincides with the
amended claim's rendering rules. -/
lemma escapeDebugChar_ascii (c : Char) (h : c.toNat ≤ 127) :
    escapeDebugChar c = rustStrDebugAsciiChar c := by
  unfold escapeDebugChar rustStrDebugAsciiChar
  split_ifs <;> first | rfl | omega

/-- On ASCII strings the embedding's `Debug` rendering coincides with the
amended claim's rendering. -/
lemma debugFmt_ascii (s : String) (h : ∀ c ∈ s.data, c.toNat ≤ 127) :
    debugFmt s = rustStrDebugAscii s := by
  have hmap : s.data.map escapeDebugChar = s.data.map rustStrDebugAsciiChar :=
    List.map_congr_left (fun c hc => escapeDebugChar_ascii c (h c hc))
  simp [debugFmt, rustStrDebugAscii, hmap]

/-- C2 amended: for values of ASCII characters, the rendered texts of
`ParseErrorAtKey`, `ParseErrorAtIndex` and `ParseError` follow the claimed
templates, except that the capture's string `value` is inserted in Rust
`Debug` form — wrapped in double quotes, with NUL, tab, CR, LF, backslash
and double quote rendered as `\0`, `\t`, `\r`, `\n`, `\\`, `\"` and the
remaining ASCII control characters (including DEL) escaped as `\u{...}` —
not verbatim; `key`, `index` and `expected_type` are inserted verbatim.
(Beyond ASCII, Rust's `Debug` additionally escapes non-printable and
grapheme-extending characters via Unicode tables, outside this statement's
scope.) -/
theorem parse_error_rendering (key value expected_type : String) (index : Nat)
    (hascii : ∀ c ∈ value.data, c.toNat ≤ 127) :
    ErrorKind.fmt (.ParseErrorAtKey key value expected_type)
      = "Cannot parse `" ++ key ++ "` with value `" ++ rustStrDebugAscii value
          ++ "` to a `" ++ expected_type ++ "`" ∧
    ErrorKind.fmt (.ParseErrorAtIndex index value expected_type)
      = "Cannot parse value at index " ++ toString index ++ " with value `"
          ++ rustStrDebugAscii value ++ "` to a `" ++ expected_type ++ "`" ∧
    ErrorKind.fmt (.ParseError value expected_type)
      = "Cannot parse `" ++ rustStrDebugAscii value
          ++ "` to a `" ++ expected_type ++ "`" := by
  rw [← debugFmt_ascii value hascii]
  exact ⟨rfl, rfl, rfl⟩

/-- Witness for the amended C2 at the ASCII value `"a\x00\n\\"`, exercising
the `\0`, `\n` and `\\` escapes: its `Debug` rendering evaluates to the
literal text `"a\0\n\\"`. -/
theorem parse_error_rendering_witness :
    (∀ c ∈ ("a\x00\n\\" : String).data, c.toNat ≤ 127) ∧
    rustStrDebugAscii "a\x00\n\\" = "\"a\\0\\n\\\\\"" ∧
    (ErrorKind.fmt (.ParseErrorAtKey "id" "a\x00\n\\" "u32")
      = "Cannot parse `id` with value `" ++ rustStrDebugAscii "a\x00\n\\"
          ++ "` to a `u32`" ∧
    ErrorKind.fmt (.ParseErrorAtIndex 7 "a\x00\n\\" "u32")
      = "Cannot parse value at index " ++ toString 7 ++ " with value `"
          ++ rustStrDebugAscii "a\x00\n\\" ++ "` to a `u32`" ∧
    ErrorKind.fmt (.ParseError "a\x00\n\\" "u32")
      = "Cannot parse `" ++ rustStrDebugAscii "a\x00\n\\"
          ++ "` to a `u32`") :=
  ⟨by decide, by decide,
   parse_error_rendering "id" "a\x00\n\\" "u32" 7 (by decide)⟩

/-- C3: the rendered text of `WrongNumberOfParameters{got, expected}` is
"Wrong number of path arguments for `Path`. Expected {expected} but got
{got}", with the tuple/struct guidance suffix appended exactly when
`expected = 1`. -/
theorem wrong_number_of_parameters_rendering (got expected : Nat) :
    ErrorKind.fmt (.WrongNumberOfParameters got expected)
      = "Wrong number of path arguments for `Path`. Expected " ++ toString expected
          ++ " but got " ++ toString got
          ++ (if expected = 1 then tupleGuidanceSuffix else "") := rfl

/-- The decoding stage short-circuits at the first entry whose decoded bytes
are not valid UTF-8, producing `InvalidUtf8InPathParam` with that entry's
key. -/
lemma decodeParams_firstInvalid (l : List (String × List Nat)) (k : String)
    (h : firstInvalidKey l = some k) :
    decodeParams l
      = .error (.FailedToDeserializePathParams ⟨⟨.InvalidUtf8InPathParam k⟩⟩) := by
  induction l with
  | nil => simp [firstInvalidKey] at h
  | cons e rest ih =>
    obtain ⟨k', v⟩ := e
    simp only [firstInvalidKey, decodeParams] at h ⊢
    cases hd : PercentDecodedStr.new v with
    | none =>
        rw [hd] at h
        simp at h
        subst h
        simp [hd]
    | some d =>
        rw [hd] at h
        simp only at h
        rw [ih h]
        simp [hd, Except.map]

/-- C4: if some entry of the capture store percent-decodes to bytes that are
not valid UTF-8, `Path::from_request` returns the
`InvalidUtf8InPathParam` rejection carrying the (first) failing entry's key,
and the deserializer is never invoked: the result is the same for every
deserializer. -/
theorem path_invalid_utf8_short_circuits {T : Type}
    (deserialize : List (String × List Nat) → Except PathDeserializationError T)
    (p : Params) (k : String)
    (h : firstInvalidKey p.entries = some k) :
    Path.from_request deserialize (some p)
      = some (.error (.FailedToDeserializePathParams
          ⟨⟨.InvalidUtf8InPathParam k⟩⟩)) ∧
    (∀ deserialize2 : List (String × List Nat) → Except PathDeserializationError T,
      Path.from_request deserialize (some p)
        = Path.from_request deserialize2 (some p)) := by
  have hmain : ∀ d : List (String × List Nat) → Except PathDeserializationError T,
      Path.from_request d (some p)
        = some (.error (.FailedToDeserializePathParams
            ⟨⟨.InvalidUtf8InPathParam k⟩⟩)) := by
    intro d
    simp only [Path.from_request]
    rw [decodeParams_firstInvalid p.entries k h]
  exact ⟨hmain deserialize, fun d2 => (hmain deserialize).trans (hmain d2).symm⟩

/-- Witness for C4 at the concrete store `[("a", "%FF")]`: the raw value
`%FF` percent-decodes to the single byte 255, which is not valid UTF-8. -/
theorem path_invalid_utf8_short_circuits_witness :
    firstInvalidKey ([("a", [37, 70, 70])] : List (String × List Nat)) = some "a" ∧
    Path.from_request (fun _ => Except.ok ()) (some ⟨[("a", [37, 70, 70])]⟩)
      = some (.error (.FailedToDeserializePathParams
          ⟨⟨.InvalidUtf8InPathParam "a"⟩⟩)) :=
  ⟨by decide,
   (path_invalid_utf8_short_circuits (fun _ => Except.ok ())
      ⟨[("a", [37, 70, 70])]⟩ "a" (by decide)).1⟩

/-- C9: `Path::from_request` requires the request's extension map to contain
a `Params` entry: when it is present the lookup never fails and extraction
proceeds to a result; when it is absent the operation panics (modelled as
`none`). -/
theorem path_from_request_requires_params {T : Type}
    (deserialize : List (String × List Nat) → Except PathDeserializationError T)
    (p : Params) :
    (∃ r, Path.from_request deserialize (some p) = some r) ∧
    Path.from_request deserialize (none : Option Params)
      = (none : Option (Except PathRejection (Path T))) :=
  ⟨⟨_, rfl⟩, rfl⟩

/-- C5 counterexample: the claim quantifies over every response written by
the worker pipeline, but the parse-failure path (`src/lib.rs`, lines 72-80)
writes the synthesized error response and returns before the finalization of
lines 90-94: the written response carries no Content-Length header at all. -/
theorem parse_failure_response_not_finalized :
    ¬ ∃ v, ("content-length", v)
        ∈ ((handleConnection (Except.error ⟨"bad request"⟩) fixedOkRouter).fst).headers := by
  rintro ⟨v, hv⟩
  simp [handleConnection, ParseRequestError.into_response] at hv

/-- C5 amended: for every response produced by the dispatch path of the
worker pipeline (i.e. when the inbound bytes parse into a request), a
Content-Length header whose value is the byte length of the response body is
appended to the header set (existing headers are kept as a prefix, never
replaced), and the response's protocol version is set to the inbound
request's, before the response is written; the parse-failure path instead
writes the synthesized error response without this finalization. -/
theorem finalized_response_contract (req : Request) (handler : Router) :
    ((handleConnection (Except.ok req) handler).fst).version = req.version ∧
    ((handleConnection (Except.ok req) handler).fst).headers
      = (dispatchResponse handler req).headers
        ++ [("content-length",
             toString ((handleConnection (Except.ok req) handler).fst).body.length)] ∧
    ((handleConnection (Except.ok req) handler).fst).body
      = (dispatchResponse handler req).body :=
  ⟨rfl, rfl, rfl⟩

/-- C6: on a parse failure the worker writes the error response synthesized
from the parse failure and terminates without invoking the dispatch entry
point: the outcome records no dispatch, and it is identical for every
handler. -/
theorem parse_failure_skips_dispatch (err : ParseRequestError)
    (handler handler2 : Router) :
    handleConnection (Except.error err) handler = (err.into_response, false) ∧
    handleConnection (Except.error err) handler
      = handleConnection (Except.error err) handler2 :=
  ⟨rfl, rfl⟩

/-- C7: converting a dispatch-level failure to a response yields, for
`ExtractorError(resp)`, exactly the wrapped response unchanged, and for
`RouteNotMatch`, the fixed 404 "not found" default response, regardless of
the request it carries. -/
theorem route_error_into_response_spec (resp : Response) (req req2 : Request) :
    RouteError.into_response (.ExtractorError resp) = resp ∧
    RouteError.into_response (.RouteNotMatch req) = err_404 ∧
    err_404.status = 404 ∧
    RouteError.into_response (.RouteNotMatch req)
      = RouteError.into_response (.RouteNotMatch req2) :=
  ⟨rfl, rfl, rfl, rfl⟩

/-- Lookup in a merged store falls through to the left store for keys absent
from the incoming store. -/
lemma params_get_merge_left (a b : Params) (k : String) (hk : k ∉ b.keys) :
    (a.merge b).get k = a.get k := by
  simp only [Params.get, Params.merge, List.reverse_append]
  rw [List.find?_append]
  have hnone : b.entries.reverse.find? (fun e => e.fst == k) = none := by
    rw [List.find?_eq_none]
    intro x hx hbeq
    refine hk ?_
    simp only [Params.keys, List.mem_map]
    exact ⟨x, List.mem_reverse.mp hx, by simpa using hbeq⟩
  rw [hnone]
  simp

/-- Lookup in a merged store resolves to the incoming store for its own
keys. -/
lemma params_get_merge_right (a b : Params) (k : String) (hk : k ∈ b.keys) :
    (a.merge b).get k = b.get k := by
  simp only [Params.get, Params.merge, List.reverse_append]
  rw [List.find?_append]
  cases hf : b.entries.reverse.find? (fun e => e.fst == k) with
  | some x => simp
  | none =>
      exfalso
      rw [List.find?_eq_none] at hf
      simp only [Params.keys, List.mem_map] at hk
      obtain ⟨e, he, hek⟩ := hk
      exact hf e (List.mem_reverse.mpr he) (by simp [hek])

/-- C8: merging an empty capture store into a populated store leaves it
unchanged, and merging two stores with disjoint key sets yields a store
whose key set is the union (concatenation) of both and in which every key
keeps its original value. -/
theorem params_merge_identity_union (p a b : Params)
    (hdisj : ∀ k, k ∈ a.keys → k ∉ b.keys) :
    p.merge Params.new = p ∧
    (a.merge b).keys = a.keys ++ b.keys ∧
    (∀ k, k ∈ a.keys → (a.merge b).get k = a.get k) ∧
    (∀ k, k ∈ b.keys → (a.merge b).get k = b.get k) := by
  refine ⟨?_, ?_, ?_, ?_⟩
  · cases p with
    | mk entries => simp [Params.merge, Params.new]
  · simp [Params.merge, Params.keys]
  · intro k hk
    exact params_get_merge_left a b k (hdisj k hk)
  · intro k hk
    exact params_get_merge_right a b k hk

/-- Witness for C8 at the concrete stores `{"z": [3]}`, `{"x": [1]}` and
`{"y": [2]}` (the latter two have disjoint key sets). -/
theorem params_merge_identity_union_witness :
    (∀ k, k ∈ (Params.mk [("x", [1])]).keys → k ∉ (Params.mk [("y", [2])]).keys) ∧
    ((Params.mk [("z", [3])]).merge Params.new = Params.mk [("z", [3])] ∧
      ((Params.mk [("x", [1])]).merge (Params.mk [("y", [2])])).keys
        = (Params.mk [("x", [1])]).keys ++ (Params.mk [("y", [2])]).keys ∧
      (∀ k, k ∈ (Params.mk [("x", [1])]).keys →
        ((Params.mk [("x", [1])]).merge (Params.mk [("y", [2])])).get k
          = (Params.mk [("x", [1])]).get k) ∧
      (∀ k, k ∈ (Params.mk [("y", [2])]).keys →
        ((Params.mk [("x", [1])]).merge (Params.mk [("y", [2])])).get k
          = (Params.mk [("y", [2])]).get k)) := by
  have hd : ∀ k, k ∈ (Params.mk [("x", [1])]).keys →
      k ∉ (Params.mk [("y", [2])]).keys := by
    intro k hk
    simp [Params.keys] at hk
    subst hk
    decide
  exact ⟨hd, params_merge_identity_union (Params.mk [("z", [3])]) _ _ hd⟩

/-- C10: extracting the body as `Vec<u8>` never fails (its rejection type is
uninhabited), returns exactly the request's current body bytes, and leaves
the request's body empty (all other request fields unchanged). -/
theorem vec_u8_from_request_spec (req : Request) :
    (VecU8.from_request req).fst = Except.ok req.body ∧
    (VecU8.from_request req).snd = { req with body := [] } ∧
    IsEmpty Infallible :=
  ⟨rfl, rfl, ⟨fun e => nomatch e⟩⟩

end Submillisecond
